import Mathlib

/-!
Shallow embedding of the booking_scraper repository
(src/booking_scraper/scraper.py and src/booking_scraper/notifications/pushover.py),
together with proofs of the behavioural claims about its discovery pipeline,
persistent item store, extractor and notifier.

Network fetching (`get_soup`), HTML parsing into a soup tree, and the HTTP
transport of notifications are external I/O; the embedding starts from their
observable outputs: the per-card field lookups the extractor performs, the
extracted item sequence the discovery loop consumes, and the parameter map a
notification posts.
-/

namespace BookingScraper

/-- Python `str.lower()` at the code-point level. -/
def str_lower (s : String) : String :=
  ⟨s.data.map Char.toLower⟩

/-- Python `str.strip()`: drop whitespace from both ends. -/
def str_strip (s : String) : String :=
  ⟨((s.data.dropWhile Char.isWhitespace).reverse.dropWhile Char.isWhitespace).reverse⟩

/-- The `HotelItem` dataclass (frozen): an ad item with url, title and price. -/
structure HotelItem where
  url : String
  title : String
  price : String
deriving DecidableEq, Repr

/-- The `SearchConfig` dataclass (frozen): one configured search. -/
structure SearchConfig where
  name : String
  url : String
  recursive : Bool := true
deriving DecidableEq, Repr

/-- The `FilterConfig` dataclass (frozen): ordered exclude patterns. -/
structure FilterConfig where
  exclude_patterns : List String := []
deriving DecidableEq, Repr

/-- The in-memory contents of `DataStore` (a `UserDict[str, HotelItem]`):
an insertion-ordered mapping title → item, modelled as an association list
in insertion order, exactly as a Python dict preserves it. -/
abbrev DataStore := List (String × HotelItem)

/-- Embeds `hotelitem.title in data_store`: dict key membership. -/
def containsTitle (data_store : DataStore) (title : String) : Bool :=
  data_store.any (fun kv => kv.1 == title)

/-- Embeds `data_store[title] = hotelitem`: dict item assignment — overwrite in place
when the key exists, otherwise append at the end (insertion order). -/
def setItem (data_store : DataStore) (title : String) (hotelitem : HotelItem) : DataStore :=
  if containsTitle data_store title then
    data_store.map (fun kv => if kv.1 == title then (title, hotelitem) else kv)
  else
    data_store ++ [(title, hotelitem)]

/-- The `Result` dataclass: counters and the list of new items for one search. -/
structure Result where
  search_config : SearchConfig
  num_already_in_datastore : Nat := 0
  num_excluded : Nat := 0
  hotelitems : List HotelItem := []
deriving DecidableEq, Repr

/-- The `for pattern in exclude_patterns: if pattern.search(title): ... break`
loop of `get_new_hotelitems`: tests each compiled pattern in order and stops at
the first match. A compiled pattern is its matching function `String → Bool`. -/
def firstMatch : List (String → Bool) → String → Bool
  | [], _ => false
  | p :: ps, title => if p title then true else firstMatch ps title

/-- Whether `needle` occurs at the head of `haystack`. -/
def charsStartWith : List Char → List Char → Bool
  | [], _ => true
  | _ :: _, [] => false
  | a :: as, b :: bs => a == b && charsStartWith as bs

/-- Whether `needle` occurs as a contiguous run anywhere in `haystack`. -/
def charsContain (needle : List Char) : List Char → Bool
  | [] => charsStartWith needle []
  | c :: rest => charsStartWith needle (c :: rest) || charsContain needle rest

/-- Modelled from the spec: the Python `re.compile(pattern, re.IGNORECASE)` /
`.search(title)` (the `re` stdlib is outside src/). For the literal patterns
the filters of this repository use ("a case-insensitive regular expression tested
against the title of an ad"), a compiled pattern matches a title exactly when the
pattern occurs case-insensitively as a substring of the title. -/
def re_search_ignorecase (pattern : String) (title : String) : Bool :=
  charsContain (str_lower pattern).data (str_lower title).data

/-- Embeds `[re.compile(pattern, re.IGNORECASE) for pattern in filter_config.exclude_patterns]`. -/
def compile_exclude_patterns (filter_config : FilterConfig) : List (String → Bool) :=
  filter_config.exclude_patterns.map (fun pattern => re_search_ignorecase pattern)

/-- One iteration of the `async for hotelitem in achain(...)` loop body of
`get_new_hotelitems`, acting on the pair (data_store, result):
already-known titles only bump `num_already_in_datastore`; otherwise the item
is stored first, then the exclusion flag (initially `False`, and the
`if not exclude_hotelitem` guard is therefore always taken) is set by the
first-match pattern search, deciding between `num_excluded` and appending
to `result.hotelitems`. -/
def processItem (exclude_patterns : List (String → Bool))
    (st : DataStore × Result) (hotelitem : HotelItem) : DataStore × Result :=
  let data_store := st.1
  let result := st.2
  if containsTitle data_store hotelitem.title then
    (data_store, { result with
      num_already_in_datastore := result.num_already_in_datastore + 1 })
  else
    let data_store := setItem data_store hotelitem.title hotelitem
    let exclude_hotelitem := false
    let exclude_hotelitem :=
      if !exclude_hotelitem then firstMatch exclude_patterns hotelitem.title
      else exclude_hotelitem
    if exclude_hotelitem then
      (data_store, { result with num_excluded := result.num_excluded + 1 })
    else
      (data_store, { result with hotelitems := result.hotelitems ++ [hotelitem] })

/-- Embeds `get_new_hotelitems(search_config, filter_config, data_store)`: compiles the
exclude patterns, then classifies every extracted item of the fetched page in
document order, starting from `Result(search_config)`. The page fetch and
markup parse are external I/O, so the extracted item sequence is the
`extracted_items` argument; the function returns the mutated data store
together with the returned `Result`. -/
def get_new_hotelitems (search_config : SearchConfig) (filter_config : FilterConfig)
    (extracted_items : List HotelItem) (data_store : DataStore) : DataStore × Result :=
  let exclude_patterns := compile_exclude_patterns filter_config
  extracted_items.foldl (processItem exclude_patterns)
    (data_store, { search_config := search_config })

/-! ## Markup extractor -/

/-- Errors raised while extracting one ad card (`AttributeError` / `KeyError` /
`IndexError` in the Python source, all of which abort the generator). -/
inductive ExtractionError where
  | missing_anchor
  | missing_title
  | missing_price
deriving DecidableEq, Repr

/-- One ad card (`div` with `data-testid="property-card"`), recorded as the
outcome of the three queries `get_hotelitems_from_soup` performs on it:
`find("h3").find("a")["href"]`, `find("h3").find("div").text`, and the texts of
`select("span[data-testid=...]")` for the price spans. A `none` / empty
value means the required markup structure is absent. -/
structure SoupCard where
  anchor_href : Option String
  title_text : Option String
  price_texts : List String
deriving DecidableEq, Repr

/-- Embeds `text.replace("\xa0", " ")`: non-breaking spaces become regular spaces. -/
def replace_nbsp (s : String) : String :=
  ⟨s.data.map (fun c => if c = Char.ofNat 0xA0 then ' ' else c)⟩

/-- Building one `HotelItem` from a card, in the evaluation order of the source
(url, then title stripped, then first price text normalized and stripped);
a missing field raises, failing the card. -/
def extractCard (card : SoupCard) : Except ExtractionError HotelItem :=
  match card.anchor_href with
  | none => .error .missing_anchor
  | some href =>
    match card.title_text with
    | none => .error .missing_title
    | some t =>
      match card.price_texts with
      | [] => .error .missing_price
      | p :: _ =>
        .ok { url := href, title := str_strip t, price := str_strip (replace_nbsp p) }

/-- Embeds `get_hotelitems_from_soup(soup, url)`, materialized: the items of every
card of the page in document order, or the first card failure — an exception
escaping the generator aborts the whole iteration, so no item sequence is
produced for the page. -/
def get_hotelitems_from_soup : List SoupCard → Except ExtractionError (List HotelItem)
  | [] => .ok []
  | card :: rest =>
    match extractCard card with
    | .error e => .error e
    | .ok hotelitem =>
      match get_hotelitems_from_soup rest with
      | .error e => .error e
      | .ok hotelitems => .ok (hotelitem :: hotelitems)

deriving instance DecidableEq for Except

/-- The full discovery pipeline for one search: extract the cards of the fetched
page, then classify. An extraction failure propagates out of
`get_new_hotelitems` and no `Result` is returned. -/
def discover (search_config : SearchConfig) (filter_config : FilterConfig)
    (page_cards : List SoupCard) (data_store : DataStore) :
    Except ExtractionError (DataStore × Result) :=
  match get_hotelitems_from_soup page_cards with
  | .error e => .error e
  | .ok extracted_items =>
    .ok (get_new_hotelitems search_config filter_config extracted_items data_store)

/-! ## Persistent item store: file lifecycle (`DataStore.open` / `DataStore.close`) -/

/-- JSON values as far as the store file format uses them: string leaves and
objects with ordered fields (`json.dump` / `json.load` of a str-keyed dict). -/
inductive Json where
  | str : String → Json
  | obj : List (String × Json) → Json

/-- Embeds `dataclasses.asdict` of a `HotelItem`, as serialized by
`DataclassesJSONEncoder`: an object with the fields in declaration order. -/
def hotelItemToJson (hotelitem : HotelItem) : Json :=
  .obj [("url", .str hotelitem.url), ("title", .str hotelitem.title),
        ("price", .str hotelitem.price)]

/-- Embeds `json.dump(self.data, f, cls=DataclassesJSONEncoder)`: the full mapping as
one JSON object, one field per stored title. -/
def storeToJson (data : DataStore) : Json :=
  .obj (data.map (fun kv => (kv.1, hotelItemToJson kv.2)))

/-- Errors escaping `DataStore.open` on an existing but malformed file
(`json.JSONDecodeError` / `TypeError` from `HotelItem(**value)`); only
`FileNotFoundError` is caught. -/
inductive StoreError where
  | parse_error
deriving DecidableEq, Repr

/-- Keyword lookup for `HotelItem(**value)`. -/
def getField (fields : List (String × Json)) (key : String) : Option Json :=
  (fields.find? (fun kv => kv.1 == key)).map (fun kv => kv.2)

/-- Embeds `HotelItem(**value)`: succeeds exactly when the object carries the three
string fields url, title, price and nothing else. -/
def hotelItemFromJson : Json → Option HotelItem
  | .obj fields =>
    if fields.length == 3 then
      match getField fields "url", getField fields "title", getField fields "price" with
      | some (.str url), some (.str title), some (.str price) =>
        some { url := url, title := title, price := price }
      | _, _, _ => none
    else none
  | .str _ => none

/-- Embeds `{key: HotelItem(**value) for key, value in json.load(f).items()}`,
evaluated in field order; the first bad entry raises. -/
def parseStore : List (String × Json) → Except StoreError DataStore
  | [] => .ok []
  | (key, value) :: rest =>
    match hotelItemFromJson value with
    | none => .error .parse_error
    | some hotelitem =>
      match parseStore rest with
      | .error e => .error e
      | .ok data => .ok ((key, hotelitem) :: data)

/-- Embeds `DataStore.open`: the contents of the file (`none` when no file exists at the
path). A missing file is caught (`FileNotFoundError` → warning) and leaves
the store at the empty mapping `UserDict` initialized. -/
def openStore : Option Json → Except StoreError DataStore
  | none => .ok []
  | some (.obj fields) => parseStore fields
  | some (.str _) => .error .parse_error

set_option linter.unusedVariables false in
/-- Embeds `DataStore.close`: `open(self.path, "w")` truncates whatever file was
there (`old_file`) and writes the serialized mapping; the old contents never
influence the written file, and a file always exists afterwards. -/
def closeStore (data : DataStore) (old_file : Option Json) : Option Json :=
  some (storeToJson data)

/-! ## Notifier (notifications/pushover.py) -/

/-- The `PushoverConfig` dataclass (frozen). -/
structure PushoverConfig where
  token : String
  user : String
  device : List String := []
deriving DecidableEq, Repr

/-- Embeds `PushoverConfig.to_params`: fields in declaration order, skipping falsy
values (empty string / empty list), lists joined with commas. -/
def PushoverConfig.to_params (config : PushoverConfig) : List (String × String) :=
  let params : List (String × String) := []
  let params := if config.token == "" then params else params ++ [("token", config.token)]
  let params := if config.user == "" then params else params ++ [("user", config.user)]
  let params :=
    if config.device.isEmpty then params
    else params ++ [("device", String.intercalate "," config.device)]
  params

/-- The keyword arguments `send_notifications` receives as `config_dict` and
splats into `PushoverConfig(**config_dict)`: each dataclass field either
present or absent, plus any keyword arguments no field accepts. -/
structure NotificationDict where
  token : Option String
  user : Option String
  device : Option (List String)
  unexpected_keys : List String
deriving DecidableEq, Repr

/-- Embeds `PushoverConfig(**config_dict)` wrapped in `try/except TypeError`:
a missing required argument (token or user) or an unexpected keyword raises
`TypeError`, re-raised as `ValueError`. -/
def PushoverConfig.from_dict (config_dict : NotificationDict) :
    Except String PushoverConfig :=
  match config_dict.token, config_dict.user, config_dict.unexpected_keys with
  | some token, some user, [] =>
    .ok { token := token, user := user, device := config_dict.device.getD [] }
  | _, _, _ => .error "Could not create PushoverConfig from config_dict"

/-- Embeds `send_notification(session, config, result)` up to the HTTP post: the
parameter map of the message it dispatches. `result.hotelitems[0]` raises
`IndexError` on an empty list, so no message exists then. -/
def send_notification (config : PushoverConfig) (result : Result) :
    Option (List (String × String)) :=
  match result.hotelitems with
  | [] => none
  | first :: _ =>
    let params := config.to_params
    let plural := if result.hotelitems.length == 1 then "" else "s"
    let params := params ++ [("html", "1")]
    let params := params ++ [("message",
      "<b>Found " ++ toString result.hotelitems.length ++ " new ad" ++ plural
        ++ " for " ++ result.search_config.name ++ "</b>" ++ "\n"
        ++ "<a href=\"" ++ first.url ++ "\">" ++ first.title ++ "</a>")]
    let params := params ++ [("url", result.search_config.url)]
    let params := params ++ [("url_title", "showing one stay, to show all click here")]
    some params

/-- The `for result in results` loop of `send_notifications`: results with
empty `hotelitems` are skipped (only logged); every other result contributes
one `send_notification` task. The returned list is the batch of dispatched
message parameter maps, in order. -/
def dispatch_tasks (config : PushoverConfig) : List Result → List (List (String × String))
  | [] => []
  | result :: rest =>
    if result.hotelitems.isEmpty then dispatch_tasks config rest
    else
      match send_notification config result with
      | some params => params :: dispatch_tasks config rest
      | none => dispatch_tasks config rest

/-- Embeds `send_notifications(results, config_dict)`: build the provider config
(raising `ValueError` for the whole batch before anything is sent), then
gather one message per result with new items. -/
def send_notifications (results : List Result) (config_dict : NotificationDict) :
    Except String (List (List (String × String))) :=
  match PushoverConfig.from_dict config_dict with
  | .error e => .error e
  | .ok config => .ok (dispatch_tasks config results)

/-- The message parameter map as a function of only the provider config, the
search configuration, the number of new items and the first new item — the
data the claim says a dispatched message may depend on. -/
def message_params (config : PushoverConfig) (search_config : SearchConfig)
    (num_new : Nat) (first : HotelItem) : List (String × String) :=
  config.to_params
    ++ [("html", "1"),
        ("message",
          "<b>Found " ++ toString num_new ++ " new ad"
            ++ (if num_new == 1 then "" else "s")
            ++ " for " ++ search_config.name ++ "</b>" ++ "\n"
            ++ "<a href=\"" ++ first.url ++ "\">" ++ first.title ++ "</a>"),
        ("url", search_config.url),
        ("url_title", "showing one stay, to show all click here")]

/-! ## Concrete objects used by the examples of the spec and the witnesses -/

def demo_search : SearchConfig :=
  { name := "hotels", url := "https://example.com/search" }

def item_cozy_loft : HotelItem :=
  { url := "https://example.com/cozy-loft", title := "Cozy Loft", price := "$100" }

def item_studio_flat : HotelItem :=
  { url := "https://example.com/studio-flat", title := "Studio Flat", price := "$80" }

def card_cozy_loft : SoupCard :=
  { anchor_href := some "https://example.com/cozy-loft",
    title_text := some "Cozy Loft", price_texts := ["$100"] }

def card_studio_flat : SoupCard :=
  { anchor_href := some "https://example.com/studio-flat",
    title_text := some "Studio Flat", price_texts := ["$80"] }

/-- A second ad with the same title as `item_cozy_loft` but different url and
price, for the dedup-by-title scenario. -/
def item_cozy_loft_dup : HotelItem :=
  { url := "https://example.com/other-loft", title := "Cozy Loft", price := "$120" }

def demo_notification_dict : NotificationDict :=
  { token := some "app-token", user := some "user-key", device := none,
    unexpected_keys := [] }

def demo_pushover_config : PushoverConfig :=
  { token := "app-token", user := "user-key" }

/-! ## Helper lemmas about the store and the classification loop -/

lemma containsTitle_append (s₁ s₂ : DataStore) (u : String) :
    containsTitle (s₁ ++ s₂) u = (containsTitle s₁ u || containsTitle s₂ u) := by
  simp [containsTitle]

lemma setItem_of_not_contains (s : DataStore) (t : String) (v : HotelItem)
    (h : containsTitle s t = false) :
    setItem s t v = s ++ [(t, v)] := by
  simp [setItem, h]

lemma setItem_of_contains (s : DataStore) (t : String) (v : HotelItem)
    (h : containsTitle s t = true) :
    setItem s t v = s.map (fun kv => if kv.1 == t then (t, v) else kv) := by
  simp [setItem, h]

lemma containsTitle_setItem_self (s : DataStore) (t : String) (v : HotelItem) :
    containsTitle (setItem s t v) t = true := by
  cases hc : containsTitle s t with
  | false => rw [setItem_of_not_contains s t v hc, containsTitle_append]; simp [containsTitle]
  | true =>
    rw [setItem_of_contains s t v hc]
    have h' : ∃ kv ∈ s, (kv.1 == t) = true := by
      simpa [containsTitle, List.any_eq_true] using hc
    obtain ⟨kv, hkv, hbeq⟩ := h'
    simp only [containsTitle, List.any_eq_true]
    refine ⟨(t, v), List.mem_map.mpr ⟨kv, hkv, by simp [hbeq]⟩, by simp⟩

lemma containsTitle_setItem_of (s : DataStore) (t u : String) (v : HotelItem)
    (h : containsTitle s u = true) :
    containsTitle (setItem s t v) u = true := by
  cases hc : containsTitle s t with
  | false => rw [setItem_of_not_contains s t v hc, containsTitle_append, h, Bool.true_or]
  | true =>
    rw [setItem_of_contains s t v hc]
    have h' : ∃ kv ∈ s, (kv.1 == u) = true := by
      simpa [containsTitle, List.any_eq_true] using h
    obtain ⟨kv, hkv, hbeq⟩ := h'
    simp only [containsTitle, List.any_eq_true]
    by_cases ht : (kv.1 == t) = true
    · have h1 : kv.1 = t := by simpa using ht
      have h2 : kv.1 = u := by simpa using hbeq
      exact ⟨(t, v), List.mem_map.mpr ⟨kv, hkv, by simp [ht]⟩, by simp [← h1, h2]⟩
    · exact ⟨kv, List.mem_map.mpr ⟨kv, hkv, by simp [ht]⟩, hbeq⟩

lemma processItem_of_contains (ps : List (String → Bool)) (st : DataStore × Result)
    (i : HotelItem) (h : containsTitle st.1 i.title = true) :
    processItem ps st i =
      (st.1, { st.2 with
        num_already_in_datastore := st.2.num_already_in_datastore + 1 }) := by
  simp [processItem, h]

lemma processItem_of_new_excluded (ps : List (String → Bool)) (st : DataStore × Result)
    (i : HotelItem) (h : containsTitle st.1 i.title = false)
    (hm : firstMatch ps i.title = true) :
    processItem ps st i =
      (setItem st.1 i.title i,
        { st.2 with num_excluded := st.2.num_excluded + 1 }) := by
  simp [processItem, h, hm]

lemma processItem_of_new_kept (ps : List (String → Bool)) (st : DataStore × Result)
    (i : HotelItem) (h : containsTitle st.1 i.title = false)
    (hm : firstMatch ps i.title = false) :
    processItem ps st i =
      (setItem st.1 i.title i,
        { st.2 with hotelitems := st.2.hotelitems ++ [i] }) := by
  simp [processItem, h, hm]

/-- Whatever branch one loop iteration takes, a title already in the store
stays in the store. -/
lemma processItem_contains_mono (ps : List (String → Bool)) (st : DataStore × Result)
    (i : HotelItem) (u : String) (h : containsTitle st.1 u = true) :
    containsTitle (processItem ps st i).1 u = true := by
  cases hc : containsTitle st.1 i.title with
  | true => rw [processItem_of_contains ps st i hc]; exact h
  | false =>
    cases hm : firstMatch ps i.title with
    | true => rw [processItem_of_new_excluded ps st i hc hm]; exact containsTitle_setItem_of _ _ _ _ h
    | false => rw [processItem_of_new_kept ps st i hc hm]; exact containsTitle_setItem_of _ _ _ _ h

/-- After its own loop iteration, the title of an item is in the store. -/
lemma processItem_contains_self (ps : List (String → Bool)) (st : DataStore × Result)
    (i : HotelItem) :
    containsTitle (processItem ps st i).1 i.title = true := by
  cases hc : containsTitle st.1 i.title with
  | true => rw [processItem_of_contains ps st i hc]; exact hc
  | false =>
    cases hm : firstMatch ps i.title with
    | true => rw [processItem_of_new_excluded ps st i hc hm]; exact containsTitle_setItem_self _ _ _
    | false => rw [processItem_of_new_kept ps st i hc hm]; exact containsTitle_setItem_self _ _ _

lemma foldl_contains_mono (ps : List (String → Bool)) :
    ∀ (items : List HotelItem) (st : DataStore × Result) (u : String),
      containsTitle st.1 u = true →
      containsTitle ((items.foldl (processItem ps) st).1) u = true := by
  intro items
  induction items with
  | nil => intro st u h; simpa using h
  | cons i rest ih =>
    intro st u h
    rw [List.foldl_cons]
    exact ih _ u (processItem_contains_mono ps st i u h)

/-- The title of every extracted item is in the store once the loop has run. -/
lemma foldl_contains_mem (ps : List (String → Bool)) :
    ∀ (items : List HotelItem) (st : DataStore × Result),
      ∀ i ∈ items, containsTitle ((items.foldl (processItem ps) st).1) i.title = true := by
  intro items
  induction items with
  | nil => intro st i h; cases h
  | cons j rest ih =>
    intro st i h
    rw [List.foldl_cons]
    rcases List.mem_cons.mp h with rfl | hmem
    · exact foldl_contains_mono ps rest _ i.title (processItem_contains_self ps st i)
    · exact ih _ i hmem

/-- Items reported as new never match a pattern: the loop only appends an item
to `result.hotelitems` after the pattern search came back empty. -/
lemma foldl_hotelitems_no_match (ps : List (String → Bool)) :
    ∀ (items : List HotelItem) (st : DataStore × Result),
      (∀ x ∈ st.2.hotelitems, firstMatch ps x.title = false) →
      ∀ x ∈ (items.foldl (processItem ps) st).2.hotelitems, firstMatch ps x.title = false := by
  intro items
  induction items with
  | nil => intro st h; simpa using h
  | cons i rest ih =>
    intro st h
    rw [List.foldl_cons]
    refine ih _ ?_
    cases hc : containsTitle st.1 i.title with
    | true => rw [processItem_of_contains ps st i hc]; exact h
    | false =>
      cases hm : firstMatch ps i.title with
      | true => rw [processItem_of_new_excluded ps st i hc hm]; exact h
      | false =>
        rw [processItem_of_new_kept ps st i hc hm]
        intro x hx
        rcases List.mem_append.mp hx with hx | hx
        · exact h x hx
        · rcases List.mem_singleton.mp hx with rfl; exact hm

/-- Every loop iteration grows `num_already_in_datastore + num_excluded +
len(hotelitems)` by exactly one. -/
lemma foldl_counts (ps : List (String → Bool)) :
    ∀ (items : List HotelItem) (st : DataStore × Result),
      (items.foldl (processItem ps) st).2.num_already_in_datastore
        + (items.foldl (processItem ps) st).2.num_excluded
        + (items.foldl (processItem ps) st).2.hotelitems.length
      = st.2.num_already_in_datastore + st.2.num_excluded
        + st.2.hotelitems.length + items.length := by
  intro items
  induction items with
  | nil => intro st; simp
  | cons i rest ih =>
    rintro ⟨store, sc, na, ne, hi⟩
    rw [List.foldl_cons]
    cases hc : containsTitle store i.title with
    | true =>
      rw [processItem_of_contains ps ⟨store, sc, na, ne, hi⟩ i hc]
      rw [ih (store, ⟨sc, na + 1, ne, hi⟩)]
      simp [List.length_cons]; omega
    | false =>
      cases hm : firstMatch ps i.title with
      | true =>
        rw [processItem_of_new_excluded ps ⟨store, sc, na, ne, hi⟩ i hc hm]
        rw [ih (setItem store i.title i, ⟨sc, na, ne + 1, hi⟩)]
        simp [List.length_cons]; omega
      | false =>
        rw [processItem_of_new_kept ps ⟨store, sc, na, ne, hi⟩ i hc hm]
        rw [ih (setItem store i.title i, ⟨sc, na, ne, hi ++ [i]⟩)]
        simp [List.length_cons, List.length_append]; omega

/-- The store grows by exactly one entry per excluded-or-new item and is
untouched for already-known items. -/
lemma foldl_store_length (ps : List (String → Bool)) :
    ∀ (items : List HotelItem) (st : DataStore × Result),
      (items.foldl (processItem ps) st).1.length
        + st.2.num_excluded + st.2.hotelitems.length
      = st.1.length + (items.foldl (processItem ps) st).2.num_excluded
        + (items.foldl (processItem ps) st).2.hotelitems.length := by
  intro items
  induction items with
  | nil => intro st; rw [List.foldl_nil]
  | cons i rest ih =>
    rintro ⟨store, sc, na, ne, hi⟩
    rw [List.foldl_cons]
    cases hc : containsTitle store i.title with
    | true =>
      rw [processItem_of_contains ps ⟨store, sc, na, ne, hi⟩ i hc]
      have := ih (store, ⟨sc, na + 1, ne, hi⟩)
      simp only at this ⊢
      omega
    | false =>
      cases hm : firstMatch ps i.title with
      | true =>
        rw [processItem_of_new_excluded ps ⟨store, sc, na, ne, hi⟩ i hc hm]
        have := ih (setItem store i.title i, ⟨sc, na, ne + 1, hi⟩)
        have hlen : (setItem store i.title i).length = store.length + 1 := by
          rw [setItem_of_not_contains store i.title i hc]; simp
        simp only at this ⊢
        omega
      | false =>
        rw [processItem_of_new_kept ps ⟨store, sc, na, ne, hi⟩ i hc hm]
        have := ih (setItem store i.title i, ⟨sc, na, ne, hi ++ [i]⟩)
        have hlen : (setItem store i.title i).length = store.length + 1 := by
          rw [setItem_of_not_contains store i.title i hc]; simp
        simp only [List.length_append, List.length_singleton] at this ⊢
        omega

/-- When every incoming title is already known, the loop leaves the store
untouched and only counts: each iteration takes the `continue` branch. -/
lemma foldl_all_contained (ps : List (String → Bool)) :
    ∀ (items : List HotelItem) (st : DataStore × Result),
      (∀ i ∈ items, containsTitle st.1 i.title = true) →
      items.foldl (processItem ps) st
        = (st.1, { st.2 with
            num_already_in_datastore :=
              st.2.num_already_in_datastore + items.length }) := by
  intro items
  induction items with
  | nil => intro st h; simp
  | cons i rest ih =>
    rintro ⟨store, sc, na, ne, hi⟩ h
    rw [List.foldl_cons,
      processItem_of_contains ps ⟨store, sc, na, ne, hi⟩ i (h i (List.mem_cons_self i rest))]
    rw [ih (store, ⟨sc, na + 1, ne, hi⟩) (fun j hj => h j (List.mem_cons_of_mem i hj))]
    have : na + 1 + rest.length = na + (i :: rest).length := by
      simp [List.length_cons]; omega
    rw [this]

/-! ## Pattern search lemmas -/

/-- The early-`break` pattern loop computes exactly "some pattern matches". -/
lemma firstMatch_eq_any (ps : List (String → Bool)) (t : String) :
    firstMatch ps t = ps.any (fun p => p t) := by
  induction ps with
  | nil => rfl
  | cons p ps ih => cases hp : p t <;> simp [firstMatch, hp, ih]

lemma any_of_perm {α : Type} {l₁ l₂ : List α} (h : l₁.Perm l₂) (p : α → Bool) :
    l₁.any p = l₂.any p := by
  cases h1 : l₁.any p with
  | true =>
    obtain ⟨x, hx, hpx⟩ := List.any_eq_true.mp h1
    exact (List.any_eq_true.mpr ⟨x, h.mem_iff.mp hx, hpx⟩).symm
  | false =>
    cases h2 : l₂.any p with
    | false => rfl
    | true =>
      obtain ⟨x, hx, hpx⟩ := List.any_eq_true.mp h2
      have hl : l₁.any p = true := List.any_eq_true.mpr ⟨x, h.mem_iff.mpr hx, hpx⟩
      rw [h1] at hl
      exact hl

lemma firstMatch_perm (ps₁ ps₂ : List (String → Bool)) (h : ps₁.Perm ps₂) (t : String) :
    firstMatch ps₁ t = firstMatch ps₂ t := by
  rw [firstMatch_eq_any, firstMatch_eq_any]
  exact any_of_perm h _

lemma processItem_congr (ps₁ ps₂ : List (String → Bool))
    (h : ∀ t, firstMatch ps₁ t = firstMatch ps₂ t)
    (st : DataStore × Result) (i : HotelItem) :
    processItem ps₁ st i = processItem ps₂ st i := by
  simp only [processItem, h i.title]

lemma foldl_processItem_congr (ps₁ ps₂ : List (String → Bool))
    (h : ∀ t, firstMatch ps₁ t = firstMatch ps₂ t) :
    ∀ (items : List HotelItem) (st : DataStore × Result),
      items.foldl (processItem ps₁) st = items.foldl (processItem ps₂) st := by
  intro items
  induction items with
  | nil => intro st; rfl
  | cons i rest ih =>
    intro st
    rw [List.foldl_cons, List.foldl_cons, processItem_congr ps₁ ps₂ h st i, ih]

/-! ## Store serialization lemmas -/

lemma hotelItemFromJson_toJson (item : HotelItem) :
    hotelItemFromJson (hotelItemToJson item) = some item := by
  simp [hotelItemToJson, hotelItemFromJson, getField, List.find?]

lemma parseStore_map_toJson : ∀ (data : DataStore),
    parseStore (data.map (fun kv => (kv.1, hotelItemToJson kv.2))) = .ok data := by
  intro data
  induction data with
  | nil => rfl
  | cons kv rest ih =>
    simp only [List.map_cons, parseStore, hotelItemFromJson_toJson, ih]

/-! ## Notifier lemmas -/

lemma send_notification_eq (config : PushoverConfig) (r : Result)
    (first : HotelItem) (rest : List HotelItem) (h : r.hotelitems = first :: rest) :
    send_notification config r
      = some (message_params config r.search_config r.hotelitems.length first) := by
  simp [send_notification, message_params, h]

lemma dispatch_tasks_eq_filterMap (config : PushoverConfig) :
    ∀ results : List Result,
      dispatch_tasks config results
        = results.filterMap (fun r =>
            match r.hotelitems with
            | [] => none
            | first :: _ =>
              some (message_params config r.search_config r.hotelitems.length first)) := by
  intro results
  induction results with
  | nil => rfl
  | cons r rest ih =>
    cases h : r.hotelitems with
    | nil =>
      simp only [dispatch_tasks, List.filterMap_cons, h, List.isEmpty_nil, if_true]
      exact ih
    | cons first others =>
      simp [dispatch_tasks, List.filterMap_cons, h,
        send_notification_eq config r first others h, ih]

/-! ## Extraction failure lemmas -/

lemma extract_error_of_mem_bad :
    ∀ (cards : List SoupCard) (c : SoupCard), c ∈ cards →
      (c.anchor_href = none ∨ c.title_text = none ∨ c.price_texts = []) →
      ∃ e, get_hotelitems_from_soup cards = .error e := by
  intro cards
  induction cards with
  | nil => intro c hc _; cases hc
  | cons d rest ih =>
    intro c hc hbad
    rcases List.mem_cons.mp hc with rfl | hmem
    · obtain ⟨a, t, p⟩ := c
      have herr : ∃ e, extractCard ⟨a, t, p⟩ = .error e := by
        dsimp only at hbad
        rcases hbad with h | h | h
        · subst h; exact ⟨.missing_anchor, rfl⟩
        · subst h
          cases a with
          | none => exact ⟨.missing_anchor, rfl⟩
          | some href => exact ⟨.missing_title, rfl⟩
        · subst h
          cases a with
          | none => exact ⟨.missing_anchor, rfl⟩
          | some href =>
            cases t with
            | none => exact ⟨.missing_title, rfl⟩
            | some tt => exact ⟨.missing_price, rfl⟩
      obtain ⟨e, he⟩ := herr
      exact ⟨e, by simp [get_hotelitems_from_soup, he]⟩
    · obtain ⟨e, he⟩ := ih c hmem hbad
      cases hx : extractCard d with
      | error e₂ => exact ⟨e₂, by simp [get_hotelitems_from_soup, hx]⟩
      | ok item => exact ⟨e, by simp [get_hotelitems_from_soup, hx, he]⟩

/-! ## Claim theorems -/

/-- C1: In `get_new_hotelitems`, an extracted item whose title is not yet in
the store is inserted into the store before exclusion filtering decides its
fate (the store update is the same whether or not a pattern matches);
consequently, after a run the title of every extracted item is in the store — in
particular an item matching an exclude pattern — while every item in the
`hotelitems` list of the result matches no exclude pattern, so a matching item never
appears there. -/
theorem C1_excluded_items_stored_never_reported :
    (∀ (ps : List (String → Bool)) (store : DataStore) (res : Result) (item : HotelItem),
      containsTitle store item.title = false →
      (processItem ps (store, res) item).1 = setItem store item.title item) ∧
    (∀ (sc : SearchConfig) (fc : FilterConfig) (items : List HotelItem)
      (store : DataStore) (item : HotelItem), item ∈ items →
      containsTitle (get_new_hotelitems sc fc items store).1 item.title = true) ∧
    (∀ (sc : SearchConfig) (fc : FilterConfig) (items : List HotelItem)
      (store : DataStore) (x : HotelItem),
      x ∈ (get_new_hotelitems sc fc items store).2.hotelitems →
      firstMatch (compile_exclude_patterns fc) x.title = false) := by
  refine ⟨?_, ?_, ?_⟩
  · intro ps store res item h
    cases hm : firstMatch ps item.title with
    | true => rw [processItem_of_new_excluded ps (store, res) item h hm]
    | false => rw [processItem_of_new_kept ps (store, res) item h hm]
  · intro sc fc items store item hmem
    simp only [get_new_hotelitems]
    exact foldl_contains_mem _ items _ item hmem
  · intro sc fc items store x hx
    simp only [get_new_hotelitems] at hx
    refine foldl_hotelitems_no_match _ items (store, { search_config := sc }) ?_ x hx
    intro y hy
    cases hy

/-- Witness for C1 at concrete inputs: a fresh "Cozy Loft" item is inserted by
its loop iteration; after a run over `[item_cozy_loft]` its title is stored;
and the "Studio Flat" item reported as new matches no pattern. -/
theorem C1_excluded_items_stored_never_reported_witness :
    (processItem (compile_exclude_patterns ⟨["loft"]⟩)
        ([], { search_config := demo_search }) item_cozy_loft).1
      = setItem [] item_cozy_loft.title item_cozy_loft ∧
    containsTitle
      (get_new_hotelitems demo_search ⟨["loft"]⟩ [item_cozy_loft] []).1
      item_cozy_loft.title = true ∧
    firstMatch (compile_exclude_patterns ⟨["loft"]⟩) item_studio_flat.title = false :=
  ⟨C1_excluded_items_stored_never_reported.1 _ [] _ item_cozy_loft (by decide),
   C1_excluded_items_stored_never_reported.2.1 demo_search ⟨["loft"]⟩ [item_cozy_loft] []
     item_cozy_loft (by decide),
   C1_excluded_items_stored_never_reported.2.2 demo_search ⟨["loft"]⟩ [item_studio_flat] []
     item_studio_flat (by decide)⟩

/-- C2: An extracted item whose title is already a store key only increments
`num_already_in_datastore`: the store (including the entry for that title) and
the other `Result` fields are untouched, so it is neither filtered nor added
to `hotelitems`. In particular, for two extracted items with the same title,
only the first is stored and only the first can appear in `hotelitems`. -/
theorem C2_known_title_only_counts :
    (∀ (ps : List (String → Bool)) (store : DataStore) (res : Result) (item : HotelItem),
      containsTitle store item.title = true →
      processItem ps (store, res) item =
        (store, { res with
          num_already_in_datastore := res.num_already_in_datastore + 1 })) ∧
    (∀ (sc : SearchConfig) (fc : FilterConfig) (store : DataStore) (a b : HotelItem),
      a.title = b.title → containsTitle store a.title = false →
      (get_new_hotelitems sc fc [a, b] store).1 = setItem store a.title a ∧
      (get_new_hotelitems sc fc [a, b] store).2.num_already_in_datastore = 1 ∧
      (get_new_hotelitems sc fc [a, b] store).2.hotelitems
        = if firstMatch (compile_exclude_patterns fc) a.title then [] else [a]) := by
  constructor
  · intro ps store res item h
    exact processItem_of_contains ps (store, res) item h
  · intro sc fc store a b hab hnc
    have hcb : containsTitle (setItem store a.title a) b.title = true := by
      rw [← hab]; exact containsTitle_setItem_self store a.title a
    simp only [get_new_hotelitems, List.foldl_cons, List.foldl_nil]
    cases hm : firstMatch (compile_exclude_patterns fc) a.title with
    | true =>
      rw [processItem_of_new_excluded _ _ a hnc hm]
      rw [processItem_of_contains _ _ b hcb]
      exact ⟨rfl, rfl, rfl⟩
    | false =>
      rw [processItem_of_new_kept _ _ a hnc hm]
      rw [processItem_of_contains _ _ b hcb]
      exact ⟨rfl, rfl, rfl⟩

/-- Witness for C2 at concrete inputs: a store already holding "Cozy Loft"
only counts the duplicate, and the duplicate-title pair
`[item_cozy_loft, item_cozy_loft_dup]` on an empty store keeps only the
first item. -/
theorem C2_known_title_only_counts_witness :
    processItem (compile_exclude_patterns ⟨[]⟩)
        ([(item_cozy_loft.title, item_cozy_loft)], { search_config := demo_search })
        item_cozy_loft_dup
      = ([(item_cozy_loft.title, item_cozy_loft)],
          { search_config := demo_search, num_already_in_datastore := 1 }) ∧
    (get_new_hotelitems demo_search ⟨[]⟩ [item_cozy_loft, item_cozy_loft_dup] []).1
      = setItem [] item_cozy_loft.title item_cozy_loft ∧
    (get_new_hotelitems demo_search ⟨[]⟩
        [item_cozy_loft, item_cozy_loft_dup] []).2.num_already_in_datastore = 1 ∧
    (get_new_hotelitems demo_search ⟨[]⟩
        [item_cozy_loft, item_cozy_loft_dup] []).2.hotelitems
      = if firstMatch (compile_exclude_patterns ⟨[]⟩) item_cozy_loft.title then []
        else [item_cozy_loft] :=
  ⟨C2_known_title_only_counts.1 _ _ _ item_cozy_loft_dup (by decide),
   C2_known_title_only_counts.2 demo_search ⟨[]⟩ [] item_cozy_loft item_cozy_loft_dup
     (by decide) (by decide)⟩

/-- C3: Only match-versus-no-match of the title against the pattern list is
observable, so permuting the configured exclude patterns changes nothing:
for every permutation of the pattern list, every store and every extracted
item sequence, the whole outcome (final store, counters, `hotelitems`) is
identical. -/
theorem C3_pattern_order_unobservable (fc₁ fc₂ : FilterConfig)
    (h : fc₁.exclude_patterns.Perm fc₂.exclude_patterns)
    (sc : SearchConfig) (items : List HotelItem) (store : DataStore) :
    get_new_hotelitems sc fc₁ items store = get_new_hotelitems sc fc₂ items store := by
  have hperm : (compile_exclude_patterns fc₁).Perm (compile_exclude_patterns fc₂) :=
    h.map _
  have hfm : ∀ t, firstMatch (compile_exclude_patterns fc₁) t
      = firstMatch (compile_exclude_patterns fc₂) t :=
    fun t => firstMatch_perm _ _ hperm t
  simp only [get_new_hotelitems]
  exact foldl_processItem_congr _ _ hfm items _

/-- Witness for C3: swapping the two patterns of `["loft", "flat"]` leaves the
run over the two demo items on the empty store unchanged. -/
theorem C3_pattern_order_unobservable_witness :
    get_new_hotelitems demo_search ⟨["loft", "flat"]⟩
        [item_cozy_loft, item_studio_flat] []
      = get_new_hotelitems demo_search ⟨["flat", "loft"]⟩
          [item_cozy_loft, item_studio_flat] [] :=
  C3_pattern_order_unobservable ⟨["loft", "flat"]⟩ ⟨["flat", "loft"]⟩
    (List.Perm.swap "flat" "loft" []) demo_search [item_cozy_loft, item_studio_flat] []

/-- C4: Running discovery a second time over the same extracted item sequence
and the store the first run left behind yields no new items, no exclusions,
`num_already_in_datastore` equal to the total discovered count of the first run
(the sum of its three classes), and an unchanged store. -/
theorem C4_second_run_discovers_nothing (sc : SearchConfig) (fc : FilterConfig)
    (items : List HotelItem) (store : DataStore) :
    (get_new_hotelitems sc fc items
        (get_new_hotelitems sc fc items store).1).2.hotelitems = [] ∧
    (get_new_hotelitems sc fc items
        (get_new_hotelitems sc fc items store).1).2.num_excluded = 0 ∧
    (get_new_hotelitems sc fc items
        (get_new_hotelitems sc fc items store).1).2.num_already_in_datastore
      = (get_new_hotelitems sc fc items store).2.num_already_in_datastore
        + (get_new_hotelitems sc fc items store).2.num_excluded
        + (get_new_hotelitems sc fc items store).2.hotelitems.length ∧
    (get_new_hotelitems sc fc items
        (get_new_hotelitems sc fc items store).1).1
      = (get_new_hotelitems sc fc items store).1 := by
  have hcount : (get_new_hotelitems sc fc items store).2.num_already_in_datastore
      + (get_new_hotelitems sc fc items store).2.num_excluded
      + (get_new_hotelitems sc fc items store).2.hotelitems.length = items.length := by
    simp only [get_new_hotelitems]
    have := foldl_counts (compile_exclude_patterns fc) items
      (store, { search_config := sc })
    simpa using this
  have hall : ∀ i ∈ items,
      containsTitle (get_new_hotelitems sc fc items store).1 i.title = true := by
    intro i hi
    simp only [get_new_hotelitems]
    exact foldl_contains_mem _ items _ i hi
  have hsecond : get_new_hotelitems sc fc items (get_new_hotelitems sc fc items store).1
      = ((get_new_hotelitems sc fc items store).1,
          { search_config := sc, num_already_in_datastore := items.length }) := by
    conv_lhs => rw [get_new_hotelitems]
    rw [foldl_all_contained (compile_exclude_patterns fc) items
      ((get_new_hotelitems sc fc items store).1, { search_config := sc }) hall]
    simp
  rw [hsecond, hcount]
  exact ⟨rfl, rfl, rfl, rfl⟩

/-- C5: On a page whose two cards are titled "Cozy Loft" ($100) and
"Studio Flat" ($80), with an empty store and exclude patterns `["loft"]`,
discovery returns `num_already_in_datastore = 0`, `num_excluded = 1` and
exactly the "Studio Flat" item as new, and the store afterwards holds exactly
the two titles, in order. -/
theorem C5_cozy_loft_example :
    discover demo_search ⟨["loft"]⟩ [card_cozy_loft, card_studio_flat] []
      = Except.ok
          ([("Cozy Loft", item_cozy_loft), ("Studio Flat", item_studio_flat)],
            { search_config := demo_search, num_already_in_datastore := 0,
              num_excluded := 1, hotelitems := [item_studio_flat] }) := by
  decide

/-- C6: Opening the store at a path with no file yields the empty mapping
without an error; closing writes the full mapping, serialized title by title,
regardless of what file (if any) was there before — and the written file
parses back to exactly the store that was closed, so the whole mapping was
serialized. -/
theorem C6_store_open_close_lifecycle :
    openStore none = Except.ok ([] : DataStore) ∧
    (∀ (data : DataStore) (old_file : Option Json),
      closeStore data old_file = some (storeToJson data)) ∧
    (∀ (data : DataStore) (old_file : Option Json),
      openStore (closeStore data old_file) = Except.ok data) := by
  refine ⟨rfl, fun _ _ => rfl, fun data old_file => ?_⟩
  show openStore (some (storeToJson data)) = Except.ok data
  simp only [openStore, storeToJson]
  exact parseStore_map_toJson data

/-- C7: With a well-formed provider configuration, `send_notifications`
dispatches no message for a result with empty `hotelitems`, and exactly one
message for every other result, whose parameters are a function of only the
provider config, the search configuration, the number of new items and the
first new item — no other item influences the message. -/
theorem C7_one_message_per_nonempty_result
    (results : List Result) (config_dict : NotificationDict) (config : PushoverConfig)
    (h : PushoverConfig.from_dict config_dict = Except.ok config) :
    send_notifications results config_dict
      = Except.ok (results.filterMap (fun r =>
          match r.hotelitems with
          | [] => none
          | first :: _ =>
            some (message_params config r.search_config r.hotelitems.length first))) := by
  simp only [send_notifications, h]
  rw [dispatch_tasks_eq_filterMap]

/-- Witness for C7: a batch of one empty and one two-item result produces
exactly one message, about the first item of the two-item result, stating
count 2. -/
theorem C7_one_message_per_nonempty_result_witness :
    send_notifications
        [{ search_config := demo_search },
         { search_config := demo_search,
           hotelitems := [item_cozy_loft, item_studio_flat] }]
        demo_notification_dict
      = Except.ok [message_params demo_pushover_config demo_search 2 item_cozy_loft] :=
  (C7_one_message_per_nonempty_result
      [{ search_config := demo_search },
       { search_config := demo_search,
         hotelitems := [item_cozy_loft, item_studio_flat] }]
      demo_notification_dict demo_pushover_config rfl).trans (by decide)

/-- C8: When the provider configuration is missing `token` or `user`, or has
keywords `PushoverConfig` does not accept, `send_notifications` raises
`ValueError` while building the config — before any task is created — so the
whole batch fails and the dispatched message list is never produced. -/
theorem C8_bad_config_fails_whole_batch (results : List Result)
    (config_dict : NotificationDict)
    (h : config_dict.token = none ∨ config_dict.user = none
        ∨ config_dict.unexpected_keys ≠ []) :
    send_notifications results config_dict
      = Except.error "Could not create PushoverConfig from config_dict" := by
  obtain ⟨tok, usr, dev, keys⟩ := config_dict
  have herr : PushoverConfig.from_dict ⟨tok, usr, dev, keys⟩
      = Except.error "Could not create PushoverConfig from config_dict" := by
    dsimp only at h
    rcases h with h | h | h
    · subst h; cases usr <;> cases keys <;> rfl
    · subst h; cases tok <;> cases keys <;> rfl
    · cases keys with
      | nil => exact absurd rfl h
      | cons k ks => cases tok <;> cases usr <;> rfl
  simp only [send_notifications, herr]

/-- Witness for C8: a configuration carrying a token but no user key fails the
whole batch. -/
theorem C8_bad_config_fails_whole_batch_witness :
    send_notifications
        [{ search_config := demo_search, hotelitems := [item_cozy_loft] }]
        { token := some "app-token", user := none, device := none,
          unexpected_keys := [] }
      = Except.error "Could not create PushoverConfig from config_dict" :=
  C8_bad_config_fails_whole_batch
    [{ search_config := demo_search, hotelitems := [item_cozy_loft] }]
    { token := some "app-token", user := none, device := none, unexpected_keys := [] }
    (Or.inr (Or.inl rfl))

/-- C9: A page with a card missing a required field (anchor url, title text,
or a price element) makes extraction fail for the page as a whole — the card
is not skipped — and the discovery pipeline aborts with an error instead of
producing a `Result`. -/
theorem C9_missing_field_aborts_page (cards : List SoupCard)
    (h : ∃ c ∈ cards,
      c.anchor_href = none ∨ c.title_text = none ∨ c.price_texts = []) :
    (∃ e, get_hotelitems_from_soup cards = Except.error e) ∧
    ∀ (sc : SearchConfig) (fc : FilterConfig) (store : DataStore),
      ∃ e, discover sc fc cards store = Except.error e := by
  obtain ⟨c, hc, hbad⟩ := h
  obtain ⟨e, he⟩ := extract_error_of_mem_bad cards c hc hbad
  exact ⟨⟨e, he⟩, fun sc fc store => ⟨e, by simp [discover, he]⟩⟩

/-- Witness for C9: a single card with url and title but no price element
fails extraction and discovery. -/
theorem C9_missing_field_aborts_page_witness :
    (∃ e, get_hotelitems_from_soup
        [{ anchor_href := some "https://example.com/x", title_text := some "X",
           price_texts := [] }] = Except.error e) ∧
    ∀ (sc : SearchConfig) (fc : FilterConfig) (store : DataStore),
      ∃ e, discover sc fc
        [{ anchor_href := some "https://example.com/x", title_text := some "X",
           price_texts := [] }] store = Except.error e :=
  C9_missing_field_aborts_page
    [{ anchor_href := some "https://example.com/x", title_text := some "X",
       price_texts := [] }]
    ⟨{ anchor_href := some "https://example.com/x", title_text := some "X",
       price_texts := [] }, by decide, Or.inr (Or.inr rfl)⟩

/-- C10: Every extracted item falls into exactly one of the three classes:
the three counters of a returned `Result` sum to the number of extracted
items, and the store grows by exactly `num_excluded + len(hotelitems)`
entries. -/
theorem C10_every_item_classified_once (sc : SearchConfig) (fc : FilterConfig)
    (items : List HotelItem) (store : DataStore) :
    (get_new_hotelitems sc fc items store).2.num_already_in_datastore
      + (get_new_hotelitems sc fc items store).2.num_excluded
      + (get_new_hotelitems sc fc items store).2.hotelitems.length
      = items.length ∧
    (get_new_hotelitems sc fc items store).1.length
      = store.length + (get_new_hotelitems sc fc items store).2.num_excluded
        + (get_new_hotelitems sc fc items store).2.hotelitems.length := by
  constructor
  · simp only [get_new_hotelitems]
    have := foldl_counts (compile_exclude_patterns fc) items
      (store, { search_config := sc })
    simpa using this
  · simp only [get_new_hotelitems]
    have := foldl_store_length (compile_exclude_patterns fc) items
      (store, { search_config := sc })
    simpa using this

end BookingScraper
